import Mathlib

/-!
Verification development for the VaaniLink hand-gesture translator
(`src/app/translator/page.tsx`, two-hand `HandTracker` pipeline).

Modelling conventions:
* JavaScript number arithmetic is embedded as exact rational arithmetic (`ℚ`).
* A `Landmarks` value is a `List Landmark`; `landmarks[i]` (which may be
  `undefined` in the source) is embedded as `lm[i]?  : Option Landmark`.
* The source compares Euclidean distances (`Math.sqrt` of `dist2`) against
  scale-relative thresholds.  Those comparisons are embedded by their exact
  squared equivalents over `ℚ` (`distGtB` / `distLtB` below), so every
  definition stays executable.  `dist r > c ↔ (c < 0 ∨ dist2 > c²)` and
  `dist r < c ↔ (0 ≤ c ∧ dist2 < c²)` hold over the reals since `dist ≥ 0`.
* `classifyGesture` receives the scale reference `hs` (the value the source
  computes on line 523 as `Math.max(handSize, baseline || 0, 0.0001)`) as a
  parameter, mirroring the spec contract `classify(landmarks, scaleRef)`;
  the `getHandSize` square root lives in that caller-side computation, whose
  squared form is `getHandSize2` below.
* The mutable refs (`waveRef`, `stillRef`, `lockStateRef`,
  `lastSpokenGestureRef`, `lastSpokenTime`) become explicit state records
  threaded through `classifyGesture` / `lockStep`.
-/

namespace VaaniLink

set_option maxRecDepth 2000

/-- One hand landmark; normalized image coordinates.  The optional `z` of the
source is never read by the classification core (`dist2` uses `x`, `y` only),
so it is omitted. -/
structure Landmark where
  x : ℚ
  y : ℚ
  deriving DecidableEq, Repr

/-- A per-hand landmark sequence (source type `Landmarks = Landmark[]`). -/
abbrev Landmarks := List Landmark

/-- Squared planar distance, source function `dist2`. -/
def dist2 (a b : Landmark) : ℚ :=
  (a.x - b.x) * (a.x - b.x) + (a.y - b.y) * (a.y - b.y)

/-- Exact embedding of the comparison `dist a b > r` (source `dist` is
`Math.sqrt (dist2)`; over the reals `√d > r ↔ r < 0 ∨ r² < d`). -/
def distGtB (a b : Landmark) (r : ℚ) : Bool :=
  decide (r < 0) || decide (r * r < dist2 a b)

/-- Exact embedding of the comparison `dist a b < r`
(over the reals `√d < r ↔ 0 ≤ r ∧ d < r²`). -/
def distLtB (a b : Landmark) (r : ℚ) : Bool :=
  decide (0 ≤ r) && decide (dist2 a b < r * r)

/-- Squared form of source `getHandSize` (wrist to middle-finger MCP
distance; 0 when either landmark is missing).  The source value is the
square root of this quantity. -/
def getHandSize2 (lm : Landmarks) : ℚ :=
  match lm[0]?, lm[9]? with
  | some wrist, some middleMcp => dist2 wrist middleMcp
  | _, _ => 0

/-- Source `isFingerExtended` (page.tsx lines 339-350): tip significantly
farther from the wrist than the PIP, and PIP farther than the MCP, with
scale-relative margins `0.16` and `0.08`; `false` when any required landmark
is missing. -/
def isFingerExtended (lm : Landmarks) (mcp pip tip : ℕ) (handSize : ℚ) : Bool :=
  match lm[0]?, lm[mcp]?, lm[pip]?, lm[tip]? with
  | some wrist, some m, some p, some t =>
    let hs2 := max handSize (1/10000) * max handSize (1/10000)
    decide (dist2 p wrist + (16/100) * hs2 < dist2 t wrist) &&
      decide (dist2 m wrist + (8/100) * hs2 < dist2 p wrist)
  | _, _, _, _ => false

/-- Source `isFingerCurled` (lines 352-360): tip closer to the wrist than the
PIP by margin `0.128`; `false` when any required landmark is missing. -/
def isFingerCurled (lm : Landmarks) (mcp pip tip : ℕ) (handSize : ℚ) : Bool :=
  match lm[0]?, lm[mcp]?, lm[pip]?, lm[tip]? with
  | some wrist, some _, some p, some t =>
    let hs2 := max handSize (1/10000) * max handSize (1/10000)
    decide (dist2 t wrist + (128/1000) * hs2 < dist2 p wrist)
  | _, _, _, _ => false

/-- Source `isThumbExtended` (lines 362-370): two-stage radial test over
thumb MCP (2) / IP (3) / TIP (4) with margins `0.128` and `0.064`. -/
def isThumbExtended (lm : Landmarks) (handSize : ℚ) : Bool :=
  match lm[0]?, lm[4]?, lm[3]?, lm[2]? with
  | some wrist, some tip, some ip, some mcp =>
    let hs2 := max handSize (1/10000) * max handSize (1/10000)
    decide (dist2 ip wrist + (128/1000) * hs2 < dist2 tip wrist) &&
      decide (dist2 mcp wrist + (64/1000) * hs2 < dist2 ip wrist)
  | _, _, _, _ => false

/-- The closed gesture enumeration of the source (`GestureId`). -/
inductive GestureId where
  | hello
  | yes
  | good_okay
  | no
  | wait
  | help
  | assistance
  | thank_you
  | please
  | goodbye
  | water
  | restroom
  | stop
  deriving DecidableEq, Repr

/-- Static phrase mapping, source constant `GESTURE_PHRASE`. -/
def GESTURE_PHRASE : GestureId → String
  | .hello => "Hello"
  | .yes => "Yes"
  | .good_okay => "Good, okay"
  | .no => "No"
  | .wait => "Wait"
  | .help => "Help"
  | .assistance => "I need assistance"
  | .thank_you => "Thank you"
  | .please => "Please"
  | .goodbye => "Goodbye"
  | .water => "I need water"
  | .restroom => "I need the restroom"
  | .stop => "Please stop"

/-- Source local `palmFour` (line 537): all four non-thumb fingers
extended. -/
def palmFourShape (lm : Landmarks) (hs : ℚ) : Bool :=
  isFingerExtended lm 5 6 8 hs && isFingerExtended lm 9 10 12 hs &&
    isFingerExtended lm 13 14 16 hs && isFingerExtended lm 17 18 20 hs

/-- Source local `fist` (line 539): all four fingers explicitly curled and
none extended. -/
def fistShape (lm : Landmarks) (hs : ℚ) : Bool :=
  isFingerCurled lm 5 6 8 hs && isFingerCurled lm 9 10 12 hs &&
    isFingerCurled lm 13 14 16 hs && isFingerCurled lm 17 18 20 hs &&
    !isFingerExtended lm 5 6 8 hs && !isFingerExtended lm 9 10 12 hs &&
    !isFingerExtended lm 13 14 16 hs && !isFingerExtended lm 17 18 20 hs

/-- State of the wave (goodbye) detector, source `waveRef`. -/
structure WaveState where
  lastX : Option ℚ
  lastDir : Int
  flips : ℕ
  startMs : ℚ
  minX : ℚ
  maxX : ℚ
  deriving DecidableEq, Repr

/-- The reset value of the wave tracker (source line 583 and initial ref
value). -/
def waveReset : WaveState :=
  { lastX := none, lastDir := 0, flips := 0, startMs := 0, minX := 1, maxX := 0 }

/-- One step of the wave detector (source lines 547-580), given the current
time, wrist x coordinate and scale reference; returns whether a goodbye wave
triggered plus the updated state. -/
def waveStep (now wx hs : ℚ) (s : WaveState) : Bool × WaveState :=
  let dx : ℚ := match s.lastX with
    | none => 0
    | some lx => wx - lx
  let dirThreshold := (12/100) * hs
  let dir : Int := if dirThreshold < dx then 1 else if dx < -dirThreshold then -1 else 0
  let startMs0 := if s.startMs = 0 then now else s.startMs
  let flips0 := if dir ≠ 0 ∧ s.lastDir ≠ 0 ∧ dir ≠ s.lastDir then s.flips + 1 else s.flips
  let lastDir0 := if dir ≠ 0 then dir else s.lastDir
  let s1 : WaveState :=
    { lastX := some wx, lastDir := lastDir0, flips := flips0, startMs := startMs0,
      minX := min s.minX wx, maxX := max s.maxX wx }
  let s2 := if 1700 < now - s1.startMs then
      { s1 with startMs := now, flips := 0, lastDir := 0, minX := 1, maxX := 0 }
    else s1
  let amplitude := s2.maxX - s2.minX
  if 450 < now - s2.startMs ∧ 3 ≤ s2.flips ∧ (56/100) * hs < amplitude then
    (true, { s2 with startMs := now, flips := 0, lastDir := 0, minX := 1, maxX := 0 })
  else
    (false, s2)

/-- State of the stillness (please / stop) detector, source `stillRef`. -/
structure StillState where
  lastX : Option ℚ
  lastY : Option ℚ
  stillMs : ℚ
  lastMs : ℚ
  deriving DecidableEq, Repr

/-- The reset value of the stillness tracker (source line 615 and initial ref
value). -/
def stillReset : StillState :=
  { lastX := none, lastY := none, stillMs := 0, lastMs := 0 }

/-- One step of the stillness detector (source lines 588-613): accumulates
still time while the wrist barely moves, then fires `stop` in the
upper-middle zone or `please` in the lower-middle zone / after a long hold.
The `st.lastMs || now` of the source treats `0` as unset. -/
def stillStep (now : ℚ) (wrist : Landmark) (st : StillState) :
    Option GestureId × StillState :=
  let lastMs := if st.lastMs = 0 then now else st.lastMs
  let dt := now - lastMs
  let dx : ℚ := match st.lastX with
    | none => 0
    | some lx => |wrist.x - lx|
  let dy : ℚ := match st.lastY with
    | none => 0
    | some ly => |wrist.y - ly|
  let isStill := dx < 12/1000 ∧ dy < 12/1000
  let stillMs := if isStill then st.stillMs + dt else 0
  let st1 : StillState :=
    { lastX := some wrist.x, lastY := some wrist.y, stillMs := stillMs, lastMs := now }
  let inStopZone := 25/100 < wrist.x ∧ wrist.x < 75/100 ∧ wrist.y < 45/100
  if inStopZone ∧ 650 < stillMs then
    (some .stop, { st1 with stillMs := 0 })
  else
    let inChestZone := 30/100 < wrist.x ∧ wrist.x < 70/100 ∧ 45/100 < wrist.y
    if (inChestZone ∧ 650 < stillMs) ∨ 1100 < stillMs then
      (some .please, { st1 with stillMs := 0 })
    else
      (none, st1)

/-- Source thumbs-down test (line 632): thumb tip below both the thumb MCP
and the wrist by more than `0.24·hs`. -/
def thumbDown (wrist thumbTip thumbMcp : Landmark) (hs : ℚ) : Bool :=
  decide (max thumbMcp.y wrist.y + (24/100) * hs < thumbTip.y)

/-- Source thumbs-up test (line 631): thumb tip above both the thumb MCP and
the wrist by more than `0.24·hs`. -/
def thumbUp (wrist thumbTip thumbMcp : Landmark) (hs : ℚ) : Bool :=
  decide (thumbTip.y < min thumbMcp.y wrist.y - (24/100) * hs)

/-- Source `classifyGesture` (lines 515-644), with the scale reference `hs`
passed in (see the module comment) and the wave / stillness tracker state
threaded explicitly.  Returns the classified gesture together with the
updated tracker states.  The locals `indexCurled` / `pinkyCurled` of the
source are only read inside `fist`; here they are folded into `fistShape`. -/
def classifyGesture (now : ℚ) (lm : Landmarks) (hs : ℚ) (ws : WaveState)
    (ss : StillState) : Option GestureId × WaveState × StillState :=
  match lm[0]?, lm[4]?, lm[2]? with
  | some wrist, some thumbTip, some thumbMcp =>
    let thumb := isThumbExtended lm hs
    let index := isFingerExtended lm 5 6 8 hs
    let middle := isFingerExtended lm 9 10 12 hs
    let ring := isFingerExtended lm 13 14 16 hs
    let pinky := isFingerExtended lm 17 18 20 hs
    let middleCurled := isFingerCurled lm 9 10 12 hs
    let ringCurled := isFingerCurled lm 13 14 16 hs
    let thumbSpreadOk := match lm[5]? with
      | some indexMcp => distGtB thumbTip indexMcp ((48/100) * hs)
      | none => true
    let palmFour := palmFourShape lm hs
    let openHand := thumbSpreadOk && thumb && palmFour
    let fist := fistShape lm hs
    let fourFingers := !thumb && palmFour
    let waterShape := !thumb && index && middle && ring && !pinky
    let wave := if palmFour then waveStep now wrist.x hs ws else (false, waveReset)
    if wave.1 then (some .goodbye, wave.2, ss)
    else
      let still := if openHand || fourFingers then stillStep now wrist ss
        else (none, stillReset)
      match still.1 with
      | some g => (some g, wave.2, still.2)
      | none =>
        let result : Option GestureId :=
          if waterShape then some .water
          else if thumb && index && pinky && (middleCurled || !middle) &&
              (ringCurled || !ring) then some .assistance
          else if fourFingers then some .thank_you
          else if thumb && !index && !middle && !ring && !pinky then
            (if thumbDown wrist thumbTip thumbMcp hs then some .no
             else if thumbUp wrist thumbTip thumbMcp hs then some .good_okay
             else some .good_okay)
          else if !thumb && index && middle && !ring && !pinky then some .help
          else if !thumb && index && !middle && !ring && !pinky then some .wait
          else if fist then some .yes
          else if openHand then some .hello
          else none
        (result, wave.2, still.2)
  | _, _, _ => (none, ws, ss)

/-- Squared form of the scale reference of the two-hand combiner (source line
819): `Math.max(getHandSize(lm0), getHandSize(lm1), baseline || 0, 0.0001)`.
Squaring is order-preserving on nonnegatives, so the max of the squares is
the square of the max; a negative `baseline` is clamped like the falsy check
of the source clamps `NaN`, and never occurs in a real run. -/
def combineScale2 (lm0 lm1 : Landmarks) (baseline : ℚ) : ℚ :=
  max (max (getHandSize2 lm0) (getHandSize2 lm1))
    (max (max baseline 0 * max baseline 0) (1/100000000))

/-- Source two-hand combiner (lines 817-834): given both single-hand
classifications and both landmark lists, detect the two-fists-low `restroom`
pattern and the namaste-style `please` merge.  `wristsClose` embeds
`dist(wrist0, wrist1) < 0.55 · hs` by its squared equivalent
(`0.3025 · hs²`; both sides nonnegative since `hs ≥ 0.0001`). -/
def combineHands (g0 g1 : Option GestureId) (lm0 lm1 : Landmarks)
    (baseline : ℚ) : Option GestureId :=
  match lm0[0]?, lm1[0]? with
  | some w0, some w1 =>
    let hs2 := combineScale2 lm0 lm1 baseline
    let wristsClose := decide (dist2 w0 w1 < (3025/10000) * hs2)
    let lowHands := decide (55/100 < w0.y) && decide (55/100 < w1.y)
    if wristsClose && lowHands && decide (g0 = some .yes) && decide (g1 = some .yes) then
      some .restroom
    else if wristsClose &&
        decide (g0 = some .hello ∨ g0 = some .thank_you ∨ g0 = some .please) &&
        decide (g1 = some .hello ∨ g1 = some .thank_you ∨ g1 = some .please) then
      some .please
    else
      none
  | _, _ => none

/-- Source constant `LOCK_FRAMES` (line 379). -/
def LOCK_FRAMES : ℕ := 10

/-- Source `lockStateRef`: the current candidate and its consecutive-frame
streak. -/
structure LockState where
  candidate : Option GestureId
  streak : ℕ
  deriving DecidableEq, Repr

/-- Full mutable state of the lock / debounce machine: `lockStateRef`,
`lastSpokenGestureRef` and the `lastSpokenTime` ref of the source. -/
structure PredictState where
  lock : LockState
  lastSpokenGesture : Option GestureId
  lastSpokenTime : ℚ
  deriving DecidableEq, Repr

/-- Initial state when a tracker session starts (refs initialized to
`{candidate: null, streak: 0}`, `null` and `0`). -/
def initPredictState : PredictState :=
  { lock := { candidate := none, streak := 0 }, lastSpokenGesture := none,
    lastSpokenTime := 0 }

/-- Streak update of the lock machine (source lines 837-843): an identical
non-null candidate extends the streak, anything else resets it. -/
def streakUpdate (lock : LockState) (candidate : Option GestureId) : LockState :=
  if candidate ≠ none ∧ candidate = lock.candidate then
    { lock with streak := lock.streak + 1 }
  else
    { candidate := candidate, streak := if candidate = none then 0 else 1 }

/-- One frame of the lock / debounce machine (source lines 836-868 together
with the `lastSpokenTime` guard inside `speak`, lines 451-457).  Returns the
updated state and the emitted lock event (`(phrase, gestureId)` passed to
`onPhrase`), if any.  On emission `lastSpokenGesture` is always set, while
`lastSpokenTime` is only refreshed when at least 3000 ms have elapsed (the
early return inside `speak`). -/
def lockStep (now : ℚ) (st : PredictState) (candidate : Option GestureId) :
    PredictState × Option (String × GestureId) :=
  let lock := streakUpdate st.lock candidate
  match candidate with
  | some g =>
    if LOCK_FRAMES ≤ lock.streak then
      if 2500 ≤ now - st.lastSpokenTime ∧ st.lastSpokenGesture ≠ some g then
        ({ lock := lock, lastSpokenGesture := some g,
           lastSpokenTime := if now - st.lastSpokenTime < 3000 then st.lastSpokenTime
             else now },
         some (GESTURE_PHRASE g, g))
      else
        ({ st with lock := lock }, none)
    else
      ({ st with lock := lock }, none)
  | none => ({ st with lock := lock }, none)

/-- Feed a list of `(timestamp, candidate)` frames through the lock machine,
collecting the emitted lock events in order. -/
def runLock (st : PredictState) (frames : List (ℚ × Option GestureId)) :
    PredictState × List (String × GestureId) :=
  match frames with
  | [] => (st, [])
  | (now, c) :: rest =>
    let step := lockStep now st c
    let tail := runLock step.1 rest
    (tail.1, match step.2 with
      | some e => e :: tail.2
      | none => tail.2)

/-- Source `calibrationRef` contents. -/
structure CalibrationState where
  baselineHandSize : ℚ
  brightness : ℚ
  isReady : Bool
  startedAt : ℚ
  samples : ℕ
  sumHandSize : ℚ
  sumBrightness : ℚ
  deriving DecidableEq, Repr

/-- Calibration state at camera start (source line 719), with window origin
`startedAt`. -/
def calibStart (startedAt : ℚ) : CalibrationState :=
  { baselineHandSize := 0, brightness := 0, isReady := false,
    startedAt := startedAt, samples := 0, sumHandSize := 0, sumBrightness := 0 }

/-- One calibration sampling frame (source lines 769-800): add the brightness
sample, add `max(handSize(hand0), handSize(hand1))` to the hand-size sum when
it is positive (a hand was detected), and increment the frame counter
unconditionally.  `hs0` / `hs1` are the per-frame hand sizes, `0` when the
respective hand is absent (`lm ? getHandSize(lm) : 0`). -/
def calibSampleStep (c : CalibrationState) (hs0 hs1 bright : ℚ) : CalibrationState :=
  let c1 := { c with sumBrightness := c.sumBrightness + bright }
  let hs := max hs0 hs1
  let c2 := if 0 < hs then { c1 with sumHandSize := c1.sumHandSize + hs } else c1
  { c2 with samples := c2.samples + 1 }

/-- Finalization of calibration once the 3000 ms window has elapsed (source
lines 802-806): divide both sums by the total frame count (floored at 1). -/
def calibFinalize (c : CalibrationState) : CalibrationState :=
  let samples : ℕ := max 1 c.samples
  { c with
    baselineHandSize := c.sumHandSize / samples
    brightness := c.sumBrightness / samples
    isReady := true }

/-- Run the whole calibration window over a list of `(hs0, hs1, brightness)`
frames and finalize. -/
def calibRun (startedAt : ℚ) (frames : List (ℚ × ℚ × ℚ)) : CalibrationState :=
  calibFinalize (frames.foldl (fun c f => calibSampleStep c f.1 f.2.1 f.2.2)
    (calibStart startedAt))

/-- Uniform scaling of a landmark about a center point by factor `f`
(spec section 8, scale-invariance property: scaling about the wrist). -/
def scalePt (c : Landmark) (f : ℚ) (p : Landmark) : Landmark :=
  { x := c.x + f * (p.x - c.x), y := c.y + f * (p.y - c.y) }

/-- Sum of the per-frame `max(handSize0, handSize1)` samples over exactly the
frames where that maximum is positive (a hand was detected) — the value
accumulated in `sumHandSize` by the calibration loop. -/
def calibHandSum : List (ℚ × ℚ × ℚ) → ℚ
  | [] => 0
  | fr :: rest =>
    (if 0 < max fr.1 fr.2.1 then max fr.1 fr.2.1 else 0) + calibHandSum rest

/-- A landmark placed exactly at the test wrist position. -/
def wristPt : Landmark := { x := 1/2, y := 1/2 }

/-- Concrete 21-point hand for the scale-invariance counterexample: only the
index finger chain (MCP 5, PIP 6, TIP 8) leaves the wrist, by amounts of the
order of the 0.0001 epsilon floor; every other landmark sits on the wrist. -/
def ceLm : Landmarks :=
  [wristPt, wristPt, wristPt, wristPt, wristPt,
   { x := 1/2 + 1/10000, y := 1/2 }, { x := 1/2 + 2/10000, y := 1/2 }, wristPt,
   { x := 1/2 + 21/100000, y := 1/2 },
   wristPt, wristPt, wristPt, wristPt, wristPt, wristPt, wristPt, wristPt,
   wristPt, wristPt, wristPt, wristPt]

/-- A five-entry hand (indices 0-4 only): wrist plus an extended thumb chain,
all other landmarks missing. -/
def thumbOnlyLm : Landmarks :=
  [wristPt, wristPt, { x := 1/2 + 5/100, y := 1/2 }, { x := 1/2 + 1/10, y := 1/2 },
   { x := 1/2 + 15/100, y := 1/2 }]

/-- Concrete 21-point ILY hand: thumb, index and pinky extended radially,
middle and ring curled back toward the wrist. -/
def ilyLm : Landmarks :=
  [{ x := 1/2, y := 9/10 },
   wristPt, { x := 1/2 + 5/100, y := 9/10 }, { x := 1/2 + 1/10, y := 9/10 },
   { x := 1/2 + 15/100, y := 9/10 },
   { x := 1/2, y := 9/10 - 5/100 }, { x := 1/2, y := 9/10 - 12/100 }, wristPt,
   { x := 1/2, y := 9/10 - 2/10 },
   { x := 1/2, y := 9/10 - 1/10 }, { x := 1/2, y := 9/10 - 1/10 }, wristPt,
   { x := 1/2, y := 9/10 - 5/100 },
   { x := 1/2, y := 9/10 - 1/10 }, { x := 1/2, y := 9/10 - 1/10 }, wristPt,
   { x := 1/2, y := 9/10 - 5/100 },
   { x := 1/2, y := 9/10 - 5/100 }, { x := 1/2, y := 9/10 - 12/100 }, wristPt,
   { x := 1/2, y := 9/10 - 2/10 }]

/-- First hand for the two-hand `restroom` witness: a wrist low in the frame
with a middle-MCP a hand-size 0.1 below it. -/
def fistHand0 : Landmarks :=
  [{ x := 40/100, y := 70/100 }, wristPt, wristPt, wristPt, wristPt, wristPt,
   wristPt, wristPt, wristPt, { x := 40/100, y := 60/100 }]

/-- Second hand for the two-hand `restroom` witness, 0.05 to the right of the
first. -/
def fistHand1 : Landmarks :=
  [{ x := 45/100, y := 70/100 }, wristPt, wristPt, wristPt, wristPt, wristPt,
   wristPt, wristPt, wristPt, { x := 45/100, y := 60/100 }]

/-- Candidate stream `[A]*9 ++ [null] ++ [A]*10` (A = hello) with frames
16 ms apart starting at t = 100000 ms. -/
def streamNine : List (ℚ × Option GestureId) :=
  (List.range 20).map fun i =>
    ((100000 : ℚ) + 16 * i, if i = 9 then none else some .hello)

/-- Candidate stream `[A]*10` (A = hello), same timing. -/
def streamTen : List (ℚ × Option GestureId) :=
  (List.range 10).map fun i => ((100000 : ℚ) + 16 * i, some .hello)

/-- Candidate stream `[A]*10 ++ [A]*10` (A = hello), frames 16 ms apart. -/
def streamTwenty : List (ℚ × Option GestureId) :=
  (List.range 20).map fun i => ((100000 : ℚ) + 16 * i, some .hello)

/-- Candidate stream `[A]*10 ++ [B]*10 ++ [A]*10` (A = hello, B = yes) with
frames 10 s apart, so the cooldown has elapsed between the streaks. -/
def streamAlternate : List (ℚ × Option GestureId) :=
  (List.range 30).map fun i =>
    ((100000 : ℚ) + 10000 * i,
     if i < 10 then some .hello else if i < 20 then some .yes else some .hello)

/-- Lock-machine state for the claim-5 counterexample: a 9-frame `yes` streak
in progress, with a `hello` lock emitted 2600 ms before the current frame. -/
def ceLockState : PredictState :=
  { lock := { candidate := some .yes, streak := 9 },
    lastSpokenGesture := some .hello, lastSpokenTime := 10000 }

/-- Resulting machine state after a first `hello` lock at `now = 100000` from
a streak-9 state. -/
def witnessLockedState : PredictState :=
  { lock := { candidate := some .hello, streak := 10 },
    lastSpokenGesture := some .hello, lastSpokenTime := 100000 }

theorem scalePt_center (c : Landmark) (f : ℚ) : scalePt c f c = c := by
  simp [scalePt]

theorem dist2_scalePt (c : Landmark) (f : ℚ) (a b : Landmark) :
    dist2 (scalePt c f a) (scalePt c f b) = f * f * dist2 a b := by
  simp only [dist2, scalePt]
  ring

theorem scale_margin_lt (f hs A B C : ℚ) (hf : 0 < f) :
    f * f * A + C * (f * hs * (f * hs)) < f * f * B ↔ A + C * (hs * hs) < B := by
  rw [show f * f * A + C * (f * hs * (f * hs)) = f * f * (A + C * (hs * hs)) from by ring]
  exact mul_lt_mul_left (mul_pos hf hf)

theorem isFingerExtended_scale (c : Landmark) (lm : Landmarks) (m p t : ℕ)
    (f hs : ℚ) (hf : 0 < f) (h1 : 1/10000 ≤ hs) (h2 : 1/10000 ≤ f * hs) :
    isFingerExtended (lm.map (scalePt c f)) m p t (f * hs)
      = isFingerExtended lm m p t hs := by
  unfold isFingerExtended
  simp only [List.getElem?_map]
  rcases lm[0]? with _ | w
  · rfl
  rcases lm[m]? with _ | mm
  · rfl
  rcases lm[p]? with _ | pp
  · rfl
  rcases lm[t]? with _ | tt
  · rfl
  simp only [Option.map_some', dist2_scalePt, max_eq_left h1, max_eq_left h2]
  congr 1 <;> rw [decide_eq_decide] <;> exact scale_margin_lt f hs _ _ _ hf

theorem isFingerCurled_scale (c : Landmark) (lm : Landmarks) (m p t : ℕ)
    (f hs : ℚ) (hf : 0 < f) (h1 : 1/10000 ≤ hs) (h2 : 1/10000 ≤ f * hs) :
    isFingerCurled (lm.map (scalePt c f)) m p t (f * hs)
      = isFingerCurled lm m p t hs := by
  unfold isFingerCurled
  simp only [List.getElem?_map]
  rcases lm[0]? with _ | w
  · rfl
  rcases lm[m]? with _ | mm
  · rfl
  rcases lm[p]? with _ | pp
  · rfl
  rcases lm[t]? with _ | tt
  · rfl
  simp only [Option.map_some', dist2_scalePt, max_eq_left h1, max_eq_left h2]
  rw [decide_eq_decide]
  exact scale_margin_lt f hs _ _ _ hf

theorem isThumbExtended_scale (c : Landmark) (lm : Landmarks)
    (f hs : ℚ) (hf : 0 < f) (h1 : 1/10000 ≤ hs) (h2 : 1/10000 ≤ f * hs) :
    isThumbExtended (lm.map (scalePt c f)) (f * hs) = isThumbExtended lm hs := by
  unfold isThumbExtended
  simp only [List.getElem?_map]
  rcases lm[0]? with _ | w
  · rfl
  rcases lm[4]? with _ | tip
  · rfl
  rcases lm[3]? with _ | ip
  · rfl
  rcases lm[2]? with _ | mcp
  · rfl
  simp only [Option.map_some', dist2_scalePt, max_eq_left h1, max_eq_left h2]
  congr 1 <;> rw [decide_eq_decide] <;> exact scale_margin_lt f hs _ _ _ hf

theorem palmFourShape_scale (c : Landmark) (lm : Landmarks)
    (f hs : ℚ) (hf : 0 < f) (h1 : 1/10000 ≤ hs) (h2 : 1/10000 ≤ f * hs) :
    palmFourShape (lm.map (scalePt c f)) (f * hs) = palmFourShape lm hs := by
  unfold palmFourShape
  rw [isFingerExtended_scale c lm 5 6 8 f hs hf h1 h2,
    isFingerExtended_scale c lm 9 10 12 f hs hf h1 h2,
    isFingerExtended_scale c lm 13 14 16 f hs hf h1 h2,
    isFingerExtended_scale c lm 17 18 20 f hs hf h1 h2]

theorem fistShape_scale (c : Landmark) (lm : Landmarks)
    (f hs : ℚ) (hf : 0 < f) (h1 : 1/10000 ≤ hs) (h2 : 1/10000 ≤ f * hs) :
    fistShape (lm.map (scalePt c f)) (f * hs) = fistShape lm hs := by
  unfold fistShape
  rw [isFingerExtended_scale c lm 5 6 8 f hs hf h1 h2,
    isFingerExtended_scale c lm 9 10 12 f hs hf h1 h2,
    isFingerExtended_scale c lm 13 14 16 f hs hf h1 h2,
    isFingerExtended_scale c lm 17 18 20 f hs hf h1 h2,
    isFingerCurled_scale c lm 5 6 8 f hs hf h1 h2,
    isFingerCurled_scale c lm 9 10 12 f hs hf h1 h2,
    isFingerCurled_scale c lm 13 14 16 f hs hf h1 h2,
    isFingerCurled_scale c lm 17 18 20 f hs hf h1 h2]

theorem distGtB_scale (c a b : Landmark) (f r : ℚ) (hf : 0 < f) (hr : 0 ≤ r) :
    distGtB (scalePt c f a) (scalePt c f b) (f * r) = distGtB a b r := by
  unfold distGtB
  rw [dist2_scalePt]
  rw [decide_eq_false (not_lt.mpr (mul_nonneg hf.le hr)),
    decide_eq_false (not_lt.mpr hr)]
  simp only [Bool.false_or]
  rw [decide_eq_decide,
    show f * r * (f * r) = f * f * (r * r) from by ring]
  exact mul_lt_mul_left (mul_pos hf hf)

theorem thumbDown_scale (w a b : Landmark) (f hs : ℚ) (hf : 0 < f) :
    thumbDown w (scalePt w f a) (scalePt w f b) (f * hs) = thumbDown w a b hs := by
  unfold thumbDown scalePt
  rw [decide_eq_decide]
  dsimp only
  rcases le_total b.y w.y with hb | hb
  · rw [max_eq_right hb, max_eq_right (by nlinarith : w.y + f * (b.y - w.y) ≤ w.y)]
    constructor
    · intro h
      have h2 : f * ((24/100) * hs) < f * (a.y - w.y) := by linarith
      have h3 := (mul_lt_mul_left hf).mp h2
      linarith
    · intro h
      have h2 : (24/100) * hs < a.y - w.y := by linarith
      have h3 := (mul_lt_mul_left hf).mpr h2
      linarith
  · rw [max_eq_left hb, max_eq_left (by nlinarith : w.y ≤ w.y + f * (b.y - w.y))]
    constructor
    · intro h
      have h2 : f * ((b.y - w.y) + (24/100) * hs) < f * (a.y - w.y) := by linarith
      have h3 := (mul_lt_mul_left hf).mp h2
      linarith
    · intro h
      have h2 : (b.y - w.y) + (24/100) * hs < a.y - w.y := by linarith
      have h3 := (mul_lt_mul_left hf).mpr h2
      linarith

theorem thumbUp_scale (w a b : Landmark) (f hs : ℚ) (hf : 0 < f) :
    thumbUp w (scalePt w f a) (scalePt w f b) (f * hs) = thumbUp w a b hs := by
  unfold thumbUp scalePt
  rw [decide_eq_decide]
  dsimp only
  rcases le_total b.y w.y with hb | hb
  · rw [min_eq_left hb, min_eq_left (by nlinarith : w.y + f * (b.y - w.y) ≤ w.y)]
    constructor
    · intro h
      have h2 : f * (a.y - w.y) < f * ((b.y - w.y) - (24/100) * hs) := by linarith
      have h3 := (mul_lt_mul_left hf).mp h2
      linarith
    · intro h
      have h2 : (a.y - w.y) < (b.y - w.y) - (24/100) * hs := by linarith
      have h3 := (mul_lt_mul_left hf).mpr h2
      linarith
  · rw [min_eq_right hb, min_eq_right (by nlinarith : w.y ≤ w.y + f * (b.y - w.y))]
    constructor
    · intro h
      have h2 : f * (a.y - w.y) < f * (0 - (24/100) * hs) := by linarith
      have h3 := (mul_lt_mul_left hf).mp h2
      linarith
    · intro h
      have h2 : (a.y - w.y) < 0 - (24/100) * hs := by linarith
      have h3 := (mul_lt_mul_left hf).mpr h2
      linarith

theorem waveStep_reset_fst (now wx hs : ℚ) : (waveStep now wx hs waveReset).1 = false := by
  unfold waveStep waveReset
  simp only [apply_ite WaveState.flips]
  norm_num

theorem stillStep_reset_fst (now : ℚ) (w : Landmark) :
    (stillStep now w stillReset).1 = none := by
  unfold stillStep stillReset
  norm_num

theorem extended_curled_false (lm : Landmarks) (m p t : ℕ) (hs : ℚ) :
    (isFingerExtended lm m p t hs && isFingerCurled lm m p t hs) = false := by
  unfold isFingerExtended isFingerCurled
  rcases lm[0]? with _ | w
  · rfl
  rcases lm[m]? with _ | mm
  · rfl
  rcases lm[p]? with _ | pp
  · rfl
  rcases lm[t]? with _ | tt
  · rfl
  dsimp only
  have hm : (0:ℚ) < max hs (1/10000) := lt_of_lt_of_le (by norm_num) (le_max_right _ _)
  by_cases hA : dist2 pp w + 16/100 * (max hs (1/10000) * max hs (1/10000)) < dist2 tt w
  · by_cases hC : dist2 tt w + 128/1000 * (max hs (1/10000) * max hs (1/10000)) < dist2 pp w
    · exfalso
      nlinarith [mul_pos hm hm]
    · rw [decide_eq_false hC, Bool.and_false]
  · rw [decide_eq_false hA]
    simp only [Bool.false_and]

/-- C1 (amended): scale invariance of the single-hand classifier.  For a hand
of 21 landmarks with wrist `w`, scaling all landmarks uniformly about the
wrist by `f ∈ [1/2, 2]` while supplying the scale reference `f·hs` yields the
same classification, provided both scale references are at least the `0.0001`
epsilon floor (so the per-predicate flooring is inactive) and the wave /
stillness trackers start from their freshly-reset state. -/
theorem claim1_scale_invariance_amended
    (lm : Landmarks) (w : Landmark) (f hs now : ℚ)
    (hw : lm[0]? = some w) (hlen : lm.length = 21)
    (hfl : 1/2 ≤ f) (hfu : f ≤ 2)
    (h1 : 1/10000 ≤ hs) (h2 : 1/10000 ≤ f * hs) :
    (classifyGesture now (lm.map (scalePt w f)) (f * hs) waveReset stillReset).1
      = (classifyGesture now lm hs waveReset stillReset).1 := by
  have hf : 0 < f := lt_of_lt_of_le (by norm_num) hfl
  have ew : (lm.map (scalePt w f))[0]? = some w := by
    rw [List.getElem?_map, hw, Option.map_some', scalePt_center]
  cases h4 : lm[4]? with
  | none =>
    have e4 : (lm.map (scalePt w f))[4]? = none := by
      rw [List.getElem?_map, h4, Option.map_none']
    simp only [classifyGesture, ew, hw, e4, h4]
  | some tt =>
    have e4 : (lm.map (scalePt w f))[4]? = some (scalePt w f tt) := by
      rw [List.getElem?_map, h4, Option.map_some']
    cases h2c : lm[2]? with
    | none =>
      have e2 : (lm.map (scalePt w f))[2]? = none := by
        rw [List.getElem?_map, h2c, Option.map_none']
      simp only [classifyGesture, ew, hw, e4, h4, e2, h2c]
    | some tm =>
      have e2 : (lm.map (scalePt w f))[2]? = some (scalePt w f tm) := by
        rw [List.getElem?_map, h2c, Option.map_some']
      have eTh := isThumbExtended_scale w lm f hs hf h1 h2
      have eI := isFingerExtended_scale w lm 5 6 8 f hs hf h1 h2
      have eM := isFingerExtended_scale w lm 9 10 12 f hs hf h1 h2
      have eR := isFingerExtended_scale w lm 13 14 16 f hs hf h1 h2
      have eP := isFingerExtended_scale w lm 17 18 20 f hs hf h1 h2
      have eMC := isFingerCurled_scale w lm 9 10 12 f hs hf h1 h2
      have eRC := isFingerCurled_scale w lm 13 14 16 f hs hf h1 h2
      have ePF := palmFourShape_scale w lm f hs hf h1 h2
      have eF := fistShape_scale w lm f hs hf h1 h2
      have eD := thumbDown_scale w tt tm f hs hf
      have eU := thumbUp_scale w tt tm f hs hf
      cases h5 : lm[5]? with
      | none =>
        have e5 : (lm.map (scalePt w f))[5]? = none := by
          rw [List.getElem?_map, h5, Option.map_none']
        simp only [classifyGesture, ew, hw, e4, h4, e2, h2c, e5, h5,
          eTh, eI, eM, eR, eP, eMC, eRC, ePF, eF, eD, eU,
          apply_ite Prod.fst, waveStep_reset_fst, stillStep_reset_fst, ite_self]
      | some im =>
        have e5 : (lm.map (scalePt w f))[5]? = some (scalePt w f im) := by
          rw [List.getElem?_map, h5, Option.map_some']
        have eS : distGtB (scalePt w f tt) (scalePt w f im) ((48/100) * (f * hs))
            = distGtB tt im ((48/100) * hs) := by
          rw [show (48:ℚ)/100 * (f * hs) = f * ((48/100) * hs) from by ring]
          exact distGtB_scale w tt im f _ hf
            (mul_nonneg (by norm_num) (le_trans (by norm_num) h1))
        simp only [classifyGesture, ew, hw, e4, h4, e2, h2c, e5, h5,
          eTh, eI, eM, eR, eP, eMC, eRC, ePF, eF, eD, eU, eS,
          apply_ite Prod.fst, waveStep_reset_fst, stillStep_reset_fst, ite_self]

unseal Rat.add Rat.mul Rat.inv Rat.sub in
/-- C1 counterexample: the claim fails as stated.  `ceLm` is a 21-point hand
classified as `wait` at scale reference `3/25000` (which is a legal scale
reference, being above the `1/10000` epsilon), yet scaling it about the wrist
by `f = 1/2` and supplying `scaleRef·f` classifies as no gesture: the scaled
reference `3/50000` falls below the `0.0001` floor inside the finger
predicates, which breaks the uniform scaling of the margins. -/
theorem claim1_counterexample :
    ceLm.length = 21 ∧ ceLm[0]? = some wristPt ∧
    (classifyGesture 0 ceLm (3/25000) waveReset stillReset).1 = some .wait ∧
    (classifyGesture 0 (ceLm.map (scalePt wristPt (1/2))) ((3/25000) * (1/2))
        waveReset stillReset).1 = none := by
  refine ⟨by decide, by decide, by decide, by decide⟩

unseal Rat.add Rat.mul Rat.inv Rat.sub in
/-- C1 witness: the amended scale-invariance theorem applied to the concrete
ILY hand with `f = 2`, `hs = 1/10`. -/
theorem claim1_witness :
    (classifyGesture 0 (ilyLm.map (scalePt { x := 1/2, y := 9/10 } 2)) (2 * (1/10))
        waveReset stillReset).1
      = (classifyGesture 0 ilyLm (1/10) waveReset stillReset).1 :=
  claim1_scale_invariance_amended ilyLm { x := 1/2, y := 9/10 } 2 (1/10) 0
    (by decide) (by decide) (by norm_num) (by norm_num) (by norm_num) (by norm_num)

unseal Rat.add Rat.mul Rat.inv Rat.sub in
/-- C2 counterexample: feeding `[A]*9 ++ [null] ++ [A]*10` does emit a lock
event (exactly one, on the final frame), contradicting the claim that no
lock is emitted: after the null frame resets the streak, the trailing ten
consecutive `A` frames reach `LOCK_FRAMES` again. -/
theorem claim2_counterexample :
    (runLock initPredictState streamNine).2 = [(GESTURE_PHRASE .hello, .hello)] ∧
    (runLock initPredictState streamNine).2 ≠ [] := by
  refine ⟨by decide, by decide⟩

unseal Rat.add Rat.mul Rat.inv Rat.sub in
/-- C2 (amended): feeding `[A]*9 ++ [null] ++ [A]*10` emits exactly one lock
event for A, on the final frame (the null frame resets the streak, so the
lock is deferred until ten consecutive A frames have accumulated after it);
feeding `[A]*10` alone emits exactly one lock for A. -/
theorem claim2_lock_debounce_amended :
    (runLock initPredictState streamNine).2 = [(GESTURE_PHRASE .hello, .hello)] ∧
    (runLock initPredictState streamTen).2 = [(GESTURE_PHRASE .hello, .hello)] := by
  refine ⟨by decide, by decide⟩

/-- C3: on every frame the lock machine emits an event iff the candidate is
non-null, the updated streak has reached `LOCK_FRAMES`, at least 2500 ms (the
cooldown constant of this pipeline) have elapsed since `lastSpokenTime`, and
the candidate differs from the last locked gesture. -/
theorem claim3_lock_emission_iff (now : ℚ) (st : PredictState)
    (candidate : Option GestureId) :
    (lockStep now st candidate).2 ≠ none ↔
      ∃ g, candidate = some g ∧
        LOCK_FRAMES ≤ (streakUpdate st.lock candidate).streak ∧
        2500 ≤ now - st.lastSpokenTime ∧ st.lastSpokenGesture ≠ some g := by
  cases candidate with
  | none => simp [lockStep]
  | some g =>
    simp only [lockStep, Option.some.injEq]
    by_cases hstreak : LOCK_FRAMES ≤ (streakUpdate st.lock (some g)).streak
    · rw [if_pos hstreak]
      by_cases hcond : 2500 ≤ now - st.lastSpokenTime ∧ st.lastSpokenGesture ≠ some g
      · rw [if_pos hcond]
        exact iff_of_true (by simp) ⟨g, rfl, hstreak, hcond.1, hcond.2⟩
      · rw [if_neg hcond]
        refine iff_of_false (by simp) ?_
        rintro ⟨g2, hg2, -, hcool, hdiff⟩
        cases hg2
        exact hcond ⟨hcool, hdiff⟩
    · rw [if_neg hstreak]
      refine iff_of_false (by simp) ?_
      rintro ⟨g2, hg2, hstr, -, -⟩
      cases hg2
      exact hstreak hstr

unseal Rat.add Rat.mul Rat.inv Rat.sub in
/-- C4: `[A]*20` (two back-to-back full streaks of the same gesture) emits
exactly one lock event, while `[A]*10 ++ [B]*10 ++ [A]*10` with the cooldown
elapsed between streaks emits exactly three — the same gesture is re-emitted
only after a different gesture has been locked in between. -/
theorem claim4_no_repeat_suppression :
    (runLock initPredictState streamTwenty).2 = [(GESTURE_PHRASE .hello, .hello)] ∧
    (runLock initPredictState streamAlternate).2
      = [(GESTURE_PHRASE .hello, .hello), (GESTURE_PHRASE .yes, .yes),
         (GESTURE_PHRASE .hello, .hello)] := by
  refine ⟨by decide, by decide⟩

unseal Rat.add Rat.mul Rat.inv Rat.sub in
/-- C5 counterexample: an emission 2600 ms after the previous lock (allowed,
since the lock gate only requires 2500 ms) does NOT refresh
`lastSpokenTime`, because the guard inside `speak` requires 3000 ms — so the
claim that every emission sets the timestamp to the current time fails. -/
theorem claim5_counterexample :
    (lockStep 12600 ceLockState (some .yes)).2 = some (GESTURE_PHRASE .yes, .yes) ∧
    (lockStep 12600 ceLockState (some .yes)).1.lastSpokenTime = 10000 ∧
    (10000 : ℚ) ≠ 12600 := by
  refine ⟨by decide, by decide, by decide⟩

/-- C5 (amended): on every lock emission the machine sets
`lastSpokenGesture` to the emitted candidate and the event carries the
`(phrase, gestureId)` pair of the static mapping, but `lastSpokenTime` is
refreshed to `now` only when at least 3000 ms have elapsed since the
previous refresh (the guard inside `speak`); otherwise it keeps its old
value. -/
theorem claim5_emission_effects_amended (now : ℚ) (st : PredictState)
    (candidate : Option GestureId) (st2 : PredictState) (ev : String × GestureId)
    (h : lockStep now st candidate = (st2, some ev)) :
    ∃ g, candidate = some g ∧ ev = (GESTURE_PHRASE g, g) ∧
      st2.lastSpokenGesture = some g ∧
      st2.lastSpokenTime =
        (if now - st.lastSpokenTime < 3000 then st.lastSpokenTime else now) := by
  cases candidate with
  | none => simp [lockStep] at h
  | some g =>
    refine ⟨g, rfl, ?_⟩
    simp only [lockStep] at h
    by_cases hstreak : LOCK_FRAMES ≤ (streakUpdate st.lock (some g)).streak
    · rw [if_pos hstreak] at h
      by_cases hcond : 2500 ≤ now - st.lastSpokenTime ∧ st.lastSpokenGesture ≠ some g
      · rw [if_pos hcond, Prod.mk.injEq, Option.some_inj] at h
        obtain ⟨hst, hev⟩ := h
        subst hst
        subst hev
        exact ⟨rfl, rfl, rfl⟩
      · rw [if_neg hcond] at h
        exact absurd h (by simp)
    · rw [if_neg hstreak] at h
      exact absurd h (by simp)

unseal Rat.add Rat.mul Rat.inv Rat.sub in
/-- C5 witness: the amended theorem applied to a concrete emission at
`now = 100000` from the initial streak-9 state. -/
theorem claim5_witness :
    ∃ g, (some GestureId.hello : Option GestureId) = some g ∧
      (GESTURE_PHRASE GestureId.hello, GestureId.hello) = (GESTURE_PHRASE g, g) ∧
      witnessLockedState.lastSpokenGesture = some g ∧
      witnessLockedState.lastSpokenTime =
        (if (100000 : ℚ) - 0 < 3000 then 0 else 100000) :=
  claim5_emission_effects_amended 100000
    { lock := { candidate := some .hello, streak := 9 }, lastSpokenGesture := none,
      lastSpokenTime := 0 }
    (some .hello) witnessLockedState (GESTURE_PHRASE .hello, .hello) (by decide)

/-- C6: whenever both wrists are present, both single-hand classifications
are `yes`, the wrists are within `0.55·scaleRef` of each other (stated via
the exact squared encoding) and both wrists sit low in the frame
(`y > 0.55`), the two-hand combiner returns `restroom`. -/
theorem claim6_two_hand_override (lm0 lm1 : Landmarks) (w0 w1 : Landmark)
    (baseline : ℚ) (h0 : lm0[0]? = some w0) (h1 : lm1[0]? = some w1)
    (hclose : dist2 w0 w1 < (3025/10000) * combineScale2 lm0 lm1 baseline)
    (hy0 : 55/100 < w0.y) (hy1 : 55/100 < w1.y) :
    combineHands (some .yes) (some .yes) lm0 lm1 baseline = some .restroom := by
  simp [combineHands, h0, h1, hclose, hy0, hy1]

unseal Rat.add Rat.mul Rat.inv Rat.sub in
/-- C6 witness: the override theorem applied to two concrete low, close
fist hands. -/
theorem claim6_witness :
    combineHands (some .yes) (some .yes) fistHand0 fistHand1 0 = some .restroom :=
  claim6_two_hand_override fistHand0 fistHand1
    { x := 40/100, y := 70/100 } { x := 45/100, y := 70/100 } 0
    (by decide) (by decide) (by decide) (by decide) (by decide)

theorem calibSampleStep_samples (c : CalibrationState) (a b br : ℚ) :
    (calibSampleStep c a b br).samples = c.samples + 1 := by
  simp [calibSampleStep, apply_ite CalibrationState.samples]

theorem calibSampleStep_sum (c : CalibrationState) (a b br : ℚ) :
    (calibSampleStep c a b br).sumHandSize
      = c.sumHandSize + (if 0 < max a b then max a b else 0) := by
  by_cases h : 0 < max a b
  · simp [calibSampleStep, h]
  · simp [calibSampleStep, h]

theorem calib_foldl_samples (frames : List (ℚ × ℚ × ℚ)) :
    ∀ c : CalibrationState,
      (frames.foldl (fun c fr => calibSampleStep c fr.1 fr.2.1 fr.2.2) c).samples
        = c.samples + frames.length := by
  induction frames with
  | nil => intro c; simp
  | cons fr rest ih =>
    intro c
    simp only [List.foldl_cons, List.length_cons]
    rw [ih, calibSampleStep_samples]
    omega

theorem calib_foldl_sum (frames : List (ℚ × ℚ × ℚ)) :
    ∀ c : CalibrationState,
      (frames.foldl (fun c fr => calibSampleStep c fr.1 fr.2.1 fr.2.2) c).sumHandSize
        = c.sumHandSize + calibHandSum frames := by
  induction frames with
  | nil => intro c; simp [calibHandSum]
  | cons fr rest ih =>
    intro c
    simp only [List.foldl_cons, calibHandSum]
    rw [ih, calibSampleStep_sum]
    ring

unseal Rat.add Rat.mul Rat.inv Rat.sub in
/-- C7 counterexample: with one frame containing a hand of size `1/10` and
one frame with no hand, the finalized baseline is `1/20`, not the detected-
frame mean `1/10` claimed — the divisor counts every frame of the window,
not only the frames where a hand was present. -/
theorem claim7_counterexample :
    (calibRun 0 [(1/10, 0, 0), (0, 0, 0)]).baselineHandSize = 1/20 ∧
    (1/20 : ℚ) ≠ 1/10 := by
  refine ⟨by decide, by decide⟩

/-- C7 (amended): when the calibration window elapses, the baseline is
finalized to the sum of the per-frame maximum hand sizes over exactly the
frames in which a hand was detected, divided by the count of ALL frames of
the window (floored at one) — absent-hand frames are skipped by the sum but
still counted by the divisor. -/
theorem claim7_baseline_amended (startedAt : ℚ) (frames : List (ℚ × ℚ × ℚ)) :
    (calibRun startedAt frames).baselineHandSize
      = calibHandSum frames / (max 1 frames.length : ℕ) := by
  unfold calibRun calibFinalize
  dsimp only
  rw [calib_foldl_sum, calib_foldl_samples]
  simp [calibStart]

/-- C8: whenever the assistance (ILY) predicate of rule 4 holds — thumb,
index and pinky extended, middle and ring each curled-or-not-extended — the
single-hand classifier returns `assistance`, for every tracker state and
scale reference.  In particular any hypothetical hand satisfying both the
assistance and the thank-you predicates would classify as `assistance`
(rule 4 is evaluated before rule 5); in fact the two predicates are jointly
unsatisfiable, since assistance requires the thumb extended and thank-you
requires it not extended. -/
theorem claim8_assistance_priority
    (now : ℚ) (lm : Landmarks) (hs : ℚ) (ws : WaveState) (ss : StillState)
    (hThumb : isThumbExtended lm hs = true)
    (hIndex : isFingerExtended lm 5 6 8 hs = true)
    (hPinky : isFingerExtended lm 17 18 20 hs = true)
    (hMid : (isFingerCurled lm 9 10 12 hs || !isFingerExtended lm 9 10 12 hs) = true)
    (hRing : (isFingerCurled lm 13 14 16 hs || !isFingerExtended lm 13 14 16 hs) = true) :
    (classifyGesture now lm hs ws ss).1 = some .assistance := by
  have hMf : isFingerExtended lm 9 10 12 hs = false := by
    cases hE : isFingerExtended lm 9 10 12 hs
    · rfl
    · have hx := extended_curled_false lm 9 10 12 hs
      rw [hE, Bool.true_and] at hx
      rw [hx, hE] at hMid
      exact absurd hMid (by simp)
  have hRf : isFingerExtended lm 13 14 16 hs = false := by
    cases hE : isFingerExtended lm 13 14 16 hs
    · rfl
    · have hx := extended_curled_false lm 13 14 16 hs
      rw [hE, Bool.true_and] at hx
      rw [hx, hE] at hRing
      exact absurd hRing (by simp)
  have hPF : palmFourShape lm hs = false := by
    unfold palmFourShape
    rw [hMf]
    simp
  unfold isThumbExtended at hThumb
  rcases h0 : lm[0]? with _ | w
  · rw [h0] at hThumb
    exact absurd hThumb (by simp)
  rcases h4 : lm[4]? with _ | tt
  · rw [h0, h4] at hThumb
    exact absurd hThumb (by simp)
  rcases h3 : lm[3]? with _ | ip
  · rw [h0, h4, h3] at hThumb
    exact absurd hThumb (by simp)
  rcases h2 : lm[2]? with _ | tm
  · rw [h0, h4, h3, h2] at hThumb
    exact absurd hThumb (by simp)
  have hThumbTrue : isThumbExtended lm hs = true := by
    unfold isThumbExtended
    rw [h0, h4, h3, h2]
    rw [h0, h4, h3, h2] at hThumb
    exact hThumb
  simp only [classifyGesture, h0, h4, h2, hThumbTrue, hIndex, hPinky, hMf, hRf, hPF,
    Bool.not_true, Bool.not_false, Bool.false_and, Bool.and_false, Bool.true_and,
    Bool.and_true, Bool.or_false, Bool.false_or, Bool.or_true, Bool.true_or,
    Bool.false_eq_true, if_false, ite_false, ite_self]
  simp

unseal Rat.add Rat.mul Rat.inv Rat.sub in
/-- C8 witness: the priority theorem applied to the concrete ILY hand. -/
theorem claim8_witness :
    (classifyGesture 0 ilyLm (1/10) waveReset stillReset).1 = some .assistance :=
  claim8_assistance_priority 0 ilyLm (1/10) waveReset stillReset
    (by decide) (by decide) (by decide) (by decide) (by decide)

unseal Rat.add Rat.mul Rat.inv Rat.sub in
/-- C9 counterexample: a hand with only the first five landmarks (wrist plus
an extended thumb chain) has missing entries, yet the classifier returns
`good_okay`, not null — partially-missing hands do not always classify as
"no gesture". -/
theorem claim9_counterexample :
    thumbOnlyLm.length = 5 ∧
    (classifyGesture 0 thumbOnlyLm (1/10) waveReset stillReset).1 = some .good_okay := by
  refine ⟨by decide, by decide⟩

/-- C9 (amended): missing landmarks degrade gracefully — each finger / thumb
predicate returns `false` whenever any of its required points is absent, and
the classifier returns null whenever the wrist, thumb tip or thumb MCP is
absent; with other points missing it still returns the gesture determined by
the remaining predicates (possibly non-null), but never fails. -/
theorem claim9_missing_landmarks_amended :
    (∀ (now : ℚ) (lm : Landmarks) (hs : ℚ) (ws : WaveState) (ss : StillState),
      lm[0]? = none ∨ lm[4]? = none ∨ lm[2]? = none →
        (classifyGesture now lm hs ws ss).1 = none) ∧
    (∀ (lm : Landmarks) (m p t : ℕ) (hs : ℚ),
      lm[0]? = none ∨ lm[m]? = none ∨ lm[p]? = none ∨ lm[t]? = none →
        isFingerExtended lm m p t hs = false) ∧
    (∀ (lm : Landmarks) (m p t : ℕ) (hs : ℚ),
      lm[0]? = none ∨ lm[m]? = none ∨ lm[p]? = none ∨ lm[t]? = none →
        isFingerCurled lm m p t hs = false) ∧
    (∀ (lm : Landmarks) (hs : ℚ),
      lm[0]? = none ∨ lm[4]? = none ∨ lm[3]? = none ∨ lm[2]? = none →
        isThumbExtended lm hs = false) := by
  refine ⟨?_, ?_, ?_, ?_⟩
  · intro now lm hs ws ss h
    rcases h with h | h | h
    · simp [classifyGesture, h]
    · rcases h0 : lm[0]? <;> simp [classifyGesture, h0, h]
    · rcases h0 : lm[0]? <;> rcases h4 : lm[4]? <;> simp [classifyGesture, h0, h4, h]
  · intro lm m p t hs h
    unfold isFingerExtended
    rcases h with h | h | h | h
    · rw [h]
    · rcases h0 : lm[0]? <;> rw [h]
    · rcases h0 : lm[0]? <;> rcases hm : lm[m]? <;> rw [h]
    · rcases h0 : lm[0]? <;> rcases hm : lm[m]? <;> rcases hp : lm[p]? <;> rw [h]
  · intro lm m p t hs h
    unfold isFingerCurled
    rcases h with h | h | h | h
    · rw [h]
    · rcases h0 : lm[0]? <;> rw [h]
    · rcases h0 : lm[0]? <;> rcases hm : lm[m]? <;> rw [h]
    · rcases h0 : lm[0]? <;> rcases hm : lm[m]? <;> rcases hp : lm[p]? <;> rw [h]
  · intro lm hs h
    unfold isThumbExtended
    rcases h with h | h | h | h
    · rw [h]
    · rcases h0 : lm[0]? <;> rw [h]
    · rcases h0 : lm[0]? <;> rcases h4 : lm[4]? <;> rw [h]
    · rcases h0 : lm[0]? <;> rcases h4 : lm[4]? <;> rcases h3 : lm[3]? <;> rw [h]

/-- C9 witness: the first component of the amended theorem applied to the
empty landmark list. -/
theorem claim9_witness :
    (classifyGesture 0 [] (1/10) waveReset stillReset).1 = none :=
  claim9_missing_landmarks_amended.1 0 [] (1/10) waveReset stillReset (Or.inl rfl)

/-- C10: for every landmark list, finger index triple and scale reference,
`isFingerExtended` and `isFingerCurled` are never both true for the same
finger (the extension margin `+0.16·hs²` and the curl margin `-0.128·hs²`
cannot hold simultaneously since `hs² > 0` after flooring), and consequently
the `fist` and `palmFour` shapes are mutually exclusive. -/
theorem claim10_extended_curled_exclusive :
    (∀ (lm : Landmarks) (m p t : ℕ) (hs : ℚ),
      (isFingerExtended lm m p t hs && isFingerCurled lm m p t hs) = false) ∧
    (∀ (lm : Landmarks) (hs : ℚ),
      (fistShape lm hs && palmFourShape lm hs) = false) := by
  refine ⟨extended_curled_false, fun lm hs => ?_⟩
  cases hI : isFingerExtended lm 5 6 8 hs
  · simp [palmFourShape, hI]
  · simp [fistShape, hI]

end VaaniLink
